import Mathlib

/-!
Shallow embedding of the sentralert alert-proposal engine
(`src/sentralert/flows/historical_analysis.py`) and of the alert applier
(`scripts/apply_alerts.py`), together with theorems settling the frozen
claims about the specification.

Numeric metric values (p95 durations, failure rates) are modelled as exact
rationals; Python `int(x)` is modelled as truncation toward zero.
-/

namespace Sentralert

/-- Python `int(q)` for a real-valued argument: truncation toward zero. -/
def pyInt (q : ℚ) : ℤ := if 0 ≤ q then ⌊q⌋ else ⌈q⌉

/-- A notification-action entry as it appears in a suggestion's `actions`
list or in a YAML alert config. Every key is optional, mirroring the
Python dict accessed with `.get`. -/
structure Action where
  type? : Option String
  targetType? : Option String
  targetIdentifier? : Option String
deriving Repr, DecidableEq

/-- The `thresholds` mapping of a suggestion: the optional `warning` and
`critical` keys. -/
structure Thresholds where
  warning? : Option ℚ
  critical? : Option ℚ
deriving Repr, DecidableEq

/-- An alert suggestion as built by `HistoricalAnalysisFlow`
(`historical_analysis.py`). `resolveThreshold?` is `none` for the two
mechanical detectors, whose dicts carry no such key. -/
structure Suggestion where
  kind : String
  flow : String
  name : String
  dataset : String
  aggregate : String
  query : String
  timeWindow : ℕ
  thresholdType : String
  environment : String
  thresholds : Thresholds
  resolveThreshold? : Option ℤ
  justification : String
  severity : String
  actions : List Action
deriving Repr, DecidableEq

/-- The JSON object expected from the oracle by
`_analyze_latency_regression` (the keys the flow reads after
`json.loads`). -/
structure OracleAnalysis where
  alert_name : String
  justification : String
  severity : String
  warning_threshold_ms : ℚ
  critical_threshold_ms : ℚ
  is_legitimate : Bool
deriving Repr, DecidableEq

/-- Outcome of one oracle round trip in `_analyze_latency_regression`
(lines 121-129): `apiError` is a transport/API exception raised by
`ClaudeClient.analyze` itself (documented to raise `anthropic.APIError`);
`malformed` is a response that fails `json.loads` or is missing a
required key (`json.JSONDecodeError` / `KeyError`, the two exception
types the flow catches); `parsed a` is a well-formed response. -/
inductive OracleResult where
  | apiError
  | malformed
  | parsed (a : OracleAnalysis)
deriving Repr, DecidableEq

/-- The oracle, as a function of the data interpolated into the prompt
(transaction name, baseline p95, current p95). -/
def Oracle : Type := String → ℚ → ℚ → OracleResult

/-- The regression percentage `((p95_now/p95_base - 1) * 100)` computed
inside the prompt string (line 106 of `historical_analysis.py`). -/
def promptRegressionPct (base now : ℚ) : ℚ := (now / base - 1) * 100

/-- The suggestion dict appended at lines 132-160 of
`historical_analysis.py` for a validated latency regression.
`ne` is the `ALERTS_NOTIFY_EMAIL` value (the `os.getenv` default is
`team@example.com`). `resolveThreshold` is `int(p95_base * 1.1)`. -/
def mkLatencySuggestion (env ne tx : String) (base : ℚ) (a : OracleAnalysis) :
    Suggestion where
  kind := "sentry.metric_alert"
  flow := "historical"
  name := a.alert_name
  dataset := "transactions"
  aggregate := "p95(transaction.duration)"
  query := "event.type:transaction transaction:\"" ++ tx ++ "\" environment:" ++ env
  timeWindow := 5
  thresholdType := "above"
  environment := env
  thresholds := ⟨some a.warning_threshold_ms, some a.critical_threshold_ms⟩
  resolveThreshold? := some (pyInt (base * 1.1))
  justification := a.justification
  severity := a.severity
  actions := [⟨some "email", some "specific", some ne⟩]

/-- The per-subject body of the loop at lines 94-167 of
`historical_analysis.py`. The row is `(transaction, p95_now)`; `bmap` is
the baseline dict (`baseline_map.get`). The guard is the Python
truthiness test `if p95_base and p95_now > 500 and p95_now > 1.4 * p95_base`
(a present-but-zero baseline is falsy). When the guard passes the oracle
is consulted: an `apiError` is not among the caught exception types, so
it propagates (`Except.error`); a `malformed` response is caught and the
subject dropped; a parsed response contributes a suggestion iff
`is_legitimate` is truthy. -/
def analyzeRow (env ne : String) (oracle : Oracle) (bmap : String → Option ℚ)
    (row : String × ℚ) : Except Unit (Option Suggestion) :=
  match bmap row.1 with
  | none => Except.ok none
  | some base =>
    if base ≠ 0 ∧ 500 < row.2 ∧ 1.4 * base < row.2 then
      match oracle row.1 base row.2 with
      | OracleResult.apiError => Except.error ()
      | OracleResult.malformed => Except.ok none
      | OracleResult.parsed a =>
        if a.is_legitimate then Except.ok (some (mkLatencySuggestion env ne row.1 base a))
        else Except.ok none
    else Except.ok none

/-- The oracle call made for a row, if any: `some (tx, base, now)` exactly
when the guard of line 99 passes and the prompt of lines 101-119 is sent. -/
def oracleCall? (bmap : String → Option ℚ) (row : String × ℚ) :
    Option (String × ℚ × ℚ) :=
  match bmap row.1 with
  | none => none
  | some base =>
    if base ≠ 0 ∧ 500 < row.2 ∧ 1.4 * base < row.2 then some (row.1, base, row.2)
    else none

/-- The loop of `_analyze_latency_regression` over the current-window
rows, with Python exception propagation: an uncaught exception in any
iteration aborts the whole detector. -/
def runRows (env ne : String) (oracle : Oracle) (bmap : String → Option ℚ) :
    List (String × ℚ) → Except Unit (List Suggestion)
  | [] => Except.ok []
  | r :: rs =>
    match analyzeRow env ne oracle bmap r with
    | Except.error e => Except.error e
    | Except.ok s? =>
      match runRows env ne oracle bmap rs with
      | Except.error e => Except.error e
      | Except.ok rest => Except.ok (s?.toList ++ rest)

/-- The baseline dict built at lines 89-91: a Python dict comprehension,
so a duplicated transaction keeps its last occurrence — hence the lookup
on the reversed row list. -/
def baselineMap (rows : List (String × ℚ)) (tx : String) : Option ℚ :=
  rows.reverse.lookup tx

/-- The suggestion dict returned at lines 192-216 of
`historical_analysis.py` for an error-rate spike; `c` is the hourly
error count. -/
def errorSuggestion (env ne : String) (c : ℤ) : Suggestion where
  kind := "sentry.metric_alert"
  flow := "historical"
  name := "High error rate in " ++ env
  dataset := "events"
  aggregate := "count()"
  query := "event.type:error environment:" ++ env
  timeWindow := 5
  thresholdType := "above"
  environment := env
  thresholds := ⟨some 30, some 50⟩
  resolveThreshold? := none
  justification :=
    "Detected " ++ toString c ++ " errors in the last hour, which exceeds normal baseline."
  severity := "HIGH"
  actions := [⟨some "email", some "specific", some ne⟩]

/-- `_analyze_error_rates` (lines 170-218 of `historical_analysis.py`):
an empty query result returns `[]`; otherwise the count of the first row
is compared against the exclusive threshold 50. Purely mechanical — the
definition takes no oracle. -/
def analyzeErrorRates (env ne : String) (errors : List ℤ) : List Suggestion :=
  match errors with
  | [] => []
  | c :: _ => if 50 < c then [errorSuggestion env ne c] else []

/-- Fixed-point rendering with one decimal digit, modelling the Python
format spec `:.1f` on the nonnegative rates that reach it. -/
def fmt1 (q : ℚ) : String :=
  let n : ℤ := ⌊q * 10 + 1 / 2⌋
  toString (n / 10) ++ "." ++ toString (n.natAbs % 10)

/-- The suggestion dict appended at lines 243-270 of
`historical_analysis.py` for a high-failure-rate transaction. -/
def failureSuggestion (env ne tx : String) (rate : ℚ) : Suggestion where
  kind := "sentry.metric_alert"
  flow := "historical"
  name := tx ++ " high failure rate"
  dataset := "transactions"
  aggregate := "failure_rate()"
  query := "event.type:transaction transaction:\"" ++ tx ++ "\" environment:" ++ env
  timeWindow := 5
  thresholdType := "above"
  environment := env
  thresholds := ⟨some 0.03, some 0.05⟩
  resolveThreshold? := none
  justification :=
    "Current failure rate is " ++ fmt1 (rate * 100) ++
      "%, which is critically high for a user-facing endpoint."
  severity := "CRITICAL"
  actions := [⟨some "email", some "specific", some ne⟩]

/-- `_analyze_failure_rates` (lines 220-273 of `historical_analysis.py`):
one suggestion per row `(transaction, failure_rate)` whose rate strictly
exceeds 0.05. Purely mechanical — the definition takes no oracle. -/
def analyzeFailureRates (env ne : String) (rows : List (String × ℚ)) :
    List Suggestion :=
  rows.filterMap fun r =>
    if 0.05 < r.2 then some (failureSuggestion env ne r.1 r.2) else none

/-! ## The alert applier (`scripts/apply_alerts.py`) -/

/-- An alert configuration as read back from a YAML suggestion file and
consumed by `SentryAlertApplier`. `name` is the one key accessed with
`[]` (required); every other key is read with `.get` and a default. -/
structure AlertConfig where
  name : String
  dataset? : Option String
  query? : Option String
  aggregate? : Option String
  timeWindow? : Option ℕ
  thresholdType? : Option String
  environment? : Option String
  thresholds? : Option Thresholds
  actions? : Option (List Action)
deriving Repr, DecidableEq

/-- A Sentry-format action dict as produced by `_build_actions`: all
three keys present. -/
structure PayloadAction where
  type : String
  targetType : String
  targetIdentifier : String
deriving Repr, DecidableEq

/-- One trigger entry of the alert-rule payload (lines 175-187 of
`apply_alerts.py`). -/
structure Trigger where
  label : String
  alertThreshold : ℚ
  actions : List PayloadAction
deriving Repr, DecidableEq

/-- The final payload shape built by `_build_alert_payload` (lines
189-204 of `apply_alerts.py`). -/
structure AlertRulePayload where
  name : String
  dataset : String
  query : String
  aggregate : String
  timeWindow : ℕ
  thresholdType : ℕ
  triggers : List Trigger
  projects : List String
  environment? : Option String
deriving Repr, DecidableEq

/-- The per-entry body of the loop in `_build_actions` (lines 219-238 of
`apply_alerts.py`): `type` defaults to `email` and `targetType` to
`specific` when the keys are absent; anything that is not an email action
with target `specific` or `team` contributes nothing. -/
def buildAction1 (a : Action) : Option PayloadAction :=
  let ty := a.type?.getD "email"
  if ty = "email" then
    let tt := a.targetType?.getD "specific"
    let ti := a.targetIdentifier?.getD ""
    if tt = "specific" then some ⟨"email", "specific", ti⟩
    else if tt = "team" then some ⟨"email", "team", ti⟩
    else none
  else none

/-- `_build_actions` (lines 206-240 of `apply_alerts.py`): the
suggestion's action list (default `[]`) filtered through `buildAction1`.
Total — the Python body performs only defaulted `.get` lookups and list
appends, so it cannot raise. -/
def buildActions (cfg : AlertConfig) : List PayloadAction :=
  (cfg.actions?.getD []).filterMap buildAction1

/-- `map_dataset` (lines 89-104 of `apply_alerts.py`): identity on the
three known datasets, `transactions` otherwise. -/
def mapDataset (d : String) : String :=
  if d = "transactions" ∨ d = "errors" ∨ d = "sessions" then d else "transactions"

/-- `_build_alert_payload` (lines 153-204 of `apply_alerts.py`):
`thresholds` defaults to `{}`; `thresholdType` maps `above` to 0 and
anything else to 1; the critical trigger is appended first when a
`critical` threshold is present, then the warning trigger when a
`warning` threshold is present, each built by its own `_build_actions`
call; `environment` is copied iff present. `map_aggregate` is the
identity. -/
def buildAlertPayload (cfg : AlertConfig) (projectSlug : String) :
    AlertRulePayload :=
  let th := cfg.thresholds?.getD ⟨none, none⟩
  let criticalTriggers : List Trigger :=
    match th.critical? with
    | some c => [⟨"critical", c, buildActions cfg⟩]
    | none => []
  let warningTriggers : List Trigger :=
    match th.warning? with
    | some w => [⟨"warning", w, buildActions cfg⟩]
    | none => []
  { name := cfg.name
    dataset := mapDataset (cfg.dataset?.getD "transactions")
    query := cfg.query?.getD ""
    aggregate := cfg.aggregate?.getD "count()"
    timeWindow := cfg.timeWindow?.getD 5
    thresholdType := if cfg.thresholdType?.getD "above" = "above" then 0 else 1
    triggers := criticalTriggers ++ warningTriggers
    projects := [projectSlug]
    environment? := cfg.environment? }

/-- An existing alert rule as listed by the backend; `find_alert_by_name`
reads `alert.get("name")` (optional) and `create_or_update_alert` reads
`existing_alert['id']`. -/
structure ExistingRule where
  id : String
  name? : Option String
deriving Repr, DecidableEq

/-- `find_alert_by_name` (lines 72-87 of `apply_alerts.py`): scan the
listed rules in order and return the first whose `name` equals the target
(Python `==` on strings — exact and case-sensitive); `None` when no rule
matches. -/
def findAlertByName (rules : List ExistingRule) (target : String) :
    Option ExistingRule :=
  rules.find? fun r => r.name? = some target

/-- The create-vs-update decision of `create_or_update_alert` (lines
139-148 of `apply_alerts.py`): `update` targets the matched rule's id
(a PUT to `.../alert-rules/{id}/`), `create` is a POST to the collection. -/
inductive ApplyMode where
  | create
  | update (ruleId : String)
deriving Repr, DecidableEq

/-- The reconciliation decision for a suggestion name against the listed
rules. -/
def decideMode (rules : List ExistingRule) (target : String) : ApplyMode :=
  match findAlertByName rules target with
  | some r => ApplyMode.update r.id
  | none => ApplyMode.create

/-! ## The batch apply loop (`apply_alerts_from_directory` and `main`) -/

/-- What happens to one YAML file inside the per-file `try` of
`apply_alerts_from_directory` (lines 265-282 of `apply_alerts.py`), as
determined by the file's content and the backend: the file fails to open
or parse, parses to a non-metric-alert kind, fails during
`create_or_update_alert` (e.g. `raise_for_status` on a non-success
response), or is applied with some backend response. The `msg` is the
stringified exception. -/
inductive FileOutcome where
  | parseError (msg : String)
  | wrongKind
  | applyError (msg : String)
  | applied (result : String)
deriving Repr, DecidableEq

/-- Whether the outcome is a successful application. -/
def FileOutcome.isApplied : FileOutcome → Bool
  | FileOutcome.applied _ => true
  | _ => false

/-- A YAML file in the alerts directory: its file name and what
processing it leads to. -/
structure AlertFile where
  name : String
  outcome : FileOutcome
deriving Repr, DecidableEq

/-- One iteration of the loop: the lines it prints and the result it
appends, if any. Both exception branches are caught by the
`except Exception` clause, which prints the offending file's name and
continues. -/
def processFile (f : AlertFile) : List String × Option String :=
  match f.outcome with
  | FileOutcome.parseError m => (["Error processing " ++ f.name ++ ": " ++ m], none)
  | FileOutcome.wrongKind => (["Skipping " ++ f.name ++ " - not a metric alert"], none)
  | FileOutcome.applyError m => (["Error processing " ++ f.name ++ ": " ++ m], none)
  | FileOutcome.applied r => ([], some r)

/-- The loop of `apply_alerts_from_directory` over the directory's YAML
files, returning the accumulated `results` list and the printed lines
(each iteration first prints `Processing <name>...`). -/
def processFiles : List AlertFile → List String × List String
  | [] => ([], [])
  | f :: fs =>
    let step := processFile f
    let rest := processFiles fs
    (step.2.toList ++ rest.1, ("Processing " ++ f.name ++ "...") :: step.1 ++ rest.2)

/-- The final line printed by `main` (line 314 of `apply_alerts.py`). -/
def finalReport (fs : List AlertFile) : String :=
  "Successfully processed " ++ toString (processFiles fs).1.length ++ " alert(s)"

/-! ## Concrete fixtures used by counterexamples and witnesses -/

/-- A well-formed oracle analysis affirming legitimacy. -/
def legitAnalysis : OracleAnalysis :=
  ⟨"Checkout latency regression", "p95 doubled", "HIGH", 550, 600, true⟩

/-- An oracle that always answers with `legitAnalysis`. -/
def oracleAlwaysLegit : Oracle := fun _ _ _ => OracleResult.parsed legitAnalysis

/-- A baseline map assigning every transaction the baseline p95 306. -/
def bmap306 : String → Option ℚ := fun _ => some 306

/-! ## Theorems -/

/-- `analyzeRow` under a present baseline, unfolded. -/
theorem analyzeRow_some (env ne : String) (oracle : Oracle)
    (bmap : String → Option ℚ) (tx : String) (now base : ℚ)
    (hb : bmap tx = some base) :
    analyzeRow env ne oracle bmap (tx, now) =
      if base ≠ 0 ∧ 500 < now ∧ 1.4 * base < now then
        match oracle tx base now with
        | OracleResult.apiError => Except.error ()
        | OracleResult.malformed => Except.ok none
        | OracleResult.parsed a =>
          if a.is_legitimate then Except.ok (some (mkLatencySuggestion env ne tx base a))
          else Except.ok none
      else Except.ok none := by
  unfold analyzeRow
  simp only [hb]

/-- One step of the `runRows` loop. -/
theorem runRows_cons (env ne : String) (oracle : Oracle)
    (bmap : String → Option ℚ) (r : String × ℚ) (rs : List (String × ℚ)) :
    runRows env ne oracle bmap (r :: rs) =
      match analyzeRow env ne oracle bmap r with
      | Except.error e => Except.error e
      | Except.ok s? =>
        match runRows env ne oracle bmap rs with
        | Except.error e => Except.error e
        | Except.ok rest => Except.ok (s?.toList ++ rest) := rfl

/-- C1 (amended): a latency suggestion kept for a subject with baseline
`base` carries `resolveThreshold = int(base * 1.1)` — Python `int`
truncation, not rounding — independently of the oracle's analysis. -/
theorem resolve_threshold_truncation (env ne tx : String) (oracle : Oracle)
    (bmap : String → Option ℚ) (now base : ℚ) (s : Suggestion)
    (hb : bmap tx = some base)
    (h : analyzeRow env ne oracle bmap (tx, now) = Except.ok (some s)) :
    s.resolveThreshold? = some (pyInt (base * 1.1)) := by
  rw [analyzeRow_some env ne oracle bmap tx now base hb] at h
  split_ifs at h with hgate
  · rcases ho : oracle tx base now with _ | _ | a <;> rw [ho] at h
    · simp at h
    · simp at h
    · by_cases hl : a.is_legitimate
      · simp only [hl, if_true, Except.ok.injEq, Option.some.injEq] at h
        subst h
        rfl
      · simp only [hl, Bool.false_eq_true, if_false] at h
        simp at h
  · simp at h

/-- C1 witness: the concrete run with baseline 306, current 600 and a
legitimacy-affirming oracle yields `resolveThreshold = 336`. -/
theorem resolve_threshold_truncation_witness :
    (mkLatencySuggestion "production" "team@example.com" "checkout" 306
        legitAnalysis).resolveThreshold? = some 336 := by
  have hrun : analyzeRow "production" "team@example.com" oracleAlwaysLegit bmap306
      ("checkout", 600) =
      Except.ok (some (mkLatencySuggestion "production" "team@example.com" "checkout" 306
        legitAnalysis)) := by
    rw [analyzeRow_some _ _ _ _ _ _ 306 rfl]
    rw [if_pos (by norm_num)]
    rfl
  have h := resolve_threshold_truncation "production" "team@example.com" "checkout"
    oracleAlwaysLegit bmap306 600 306 _ rfl hrun
  rw [h]
  norm_num [pyInt]

/-- C1 counterexample: with baseline 306 the kept suggestion's
`resolveThreshold` is 336, while `round(1.1 × 306) = round(336.6) = 337` —
the claim's rounding formula does not match the code's truncation. -/
theorem resolve_threshold_round_cex :
    (analyzeRow "production" "team@example.com" oracleAlwaysLegit bmap306
        ("checkout", 600)).map (Option.map Suggestion.resolveThreshold?) =
      Except.ok (some (some 336)) ∧
    round ((1.1 : ℚ) * 306) = 337 := by
  constructor
  · rw [analyzeRow_some _ _ _ _ _ _ 306 rfl]
    rw [if_pos (by norm_num)]
    show Except.ok (some (some (pyInt (306 * 1.1)))) = _
    norm_num [pyInt]
  · norm_num [round_eq]

/-- C2 (amended): for a subject passing the mechanical gate, a malformed
oracle response (uncaught only as `json.JSONDecodeError` / `KeyError`)
drops just that subject and the loop continues, while a transport error
raised by `ClaudeClient.analyze` is not among the caught exceptions and
aborts the whole detector run. -/
theorem oracle_failure_policy (env ne tx : String) (now base : ℚ)
    (rs : List (String × ℚ)) (bmap : String → Option ℚ) (oM oA : Oracle)
    (hb : bmap tx = some base) (h0 : base ≠ 0) (h5 : 500 < now)
    (h14 : 1.4 * base < now)
    (hM : oM tx base now = OracleResult.malformed)
    (hA : oA tx base now = OracleResult.apiError) :
    runRows env ne oM bmap ((tx, now) :: rs) = runRows env ne oM bmap rs ∧
    runRows env ne oA bmap ((tx, now) :: rs) = Except.error () := by
  have hgate : base ≠ 0 ∧ 500 < now ∧ 1.4 * base < now := ⟨h0, h5, h14⟩
  constructor
  · have hrow : analyzeRow env ne oM bmap (tx, now) = Except.ok none := by
      rw [analyzeRow_some env ne oM bmap tx now base hb, if_pos hgate, hM]
    rw [runRows_cons, hrow]
    rcases hr : runRows env ne oM bmap rs with e | l <;> simp
  · have hrow : analyzeRow env ne oA bmap (tx, now) = Except.error () := by
      rw [analyzeRow_some env ne oA bmap tx now base hb, if_pos hgate, hA]
    rw [runRows_cons, hrow]

/-- C2 witness: concrete oracles realising both branches of the failure
policy at baseline 306, current 600. -/
theorem oracle_failure_policy_witness :
    runRows "production" "team@example.com" (fun _ _ _ => OracleResult.malformed)
        bmap306 [("a", 600)] =
      runRows "production" "team@example.com" (fun _ _ _ => OracleResult.malformed)
        bmap306 [] ∧
    runRows "production" "team@example.com" (fun _ _ _ => OracleResult.apiError)
        bmap306 [("a", 600)] = Except.error () :=
  oracle_failure_policy "production" "team@example.com" "a" 600 306 []
    bmap306 _ _ rfl (by norm_num) (by norm_num) (by norm_num) rfl rfl

/-- An oracle failing with a transport error on transaction `a` and
answering legitimately otherwise. -/
def oracleFailOnA : Oracle := fun tx _ _ =>
  if tx = "a" then OracleResult.apiError else OracleResult.parsed legitAnalysis

/-- C2 counterexample: a transport failure on the first subject makes the
whole detector run fatal (`Except.error`), dropping the second subject —
which on its own would have produced a suggestion — so the failure is not
confined to the failing subject. -/
theorem oracle_transport_fatal_cex :
    runRows "production" "team@example.com" oracleFailOnA bmap306
        [("a", 600), ("b", 600)] = Except.error () ∧
    (runRows "production" "team@example.com" oracleFailOnA bmap306
        [("b", 600)]).map List.length = Except.ok 1 := by
  have ha : analyzeRow "production" "team@example.com" oracleFailOnA bmap306
      ("a", 600) = Except.error () := by
    rw [analyzeRow_some _ _ _ _ _ _ 306 rfl, if_pos (by norm_num)]
    rfl
  have hbrow : analyzeRow "production" "team@example.com" oracleFailOnA bmap306
      ("b", 600) =
      Except.ok (some (mkLatencySuggestion "production" "team@example.com" "b" 306
        legitAnalysis)) := by
    rw [analyzeRow_some _ _ _ _ _ _ 306 rfl, if_pos (by norm_num)]
    rfl
  constructor
  · rw [runRows_cons, ha]
  · rw [runRows_cons, hbrow]
    rfl

/-- `oracleCall?` under a present baseline, unfolded. -/
theorem oracleCall_some (bmap : String → Option ℚ) (tx : String) (now base : ℚ)
    (hb : bmap tx = some base) :
    oracleCall? bmap (tx, now) =
      if base ≠ 0 ∧ 500 < now ∧ 1.4 * base < now then some (tx, base, now)
      else none := by
  unfold oracleCall?
  simp only [hb]

/-- `oracleCall?` under an absent baseline. -/
theorem oracleCall_none (bmap : String → Option ℚ) (tx : String) (now : ℚ)
    (hb : bmap tx = none) : oracleCall? bmap (tx, now) = none := by
  unfold oracleCall?
  simp only [hb]

/-- Pushing a guarded `filterMap` through `filter` and `map`. -/
theorem filterMap_if {α β : Type} (p : α → Prop) [DecidablePred p] (g : α → β)
    (l : List α) :
    l.filterMap (fun a => if p a then some (g a) else none) =
      (l.filter fun a => p a).map g := by
  induction l with
  | nil => rfl
  | cons a as ih =>
    by_cases hp : p a
    · simp [List.filterMap_cons, List.filter_cons, hp, ih]
    · simp [List.filterMap_cons, List.filter_cons, hp, ih]

/-- C3: with a present baseline, a current p95 at or below 500 or at or
below 1.4 × baseline yields no detection — the row produces no
suggestion and no oracle call, for every oracle — and a subject absent
from the baseline map is always suppressed. -/
theorem latency_gate_suppression (env ne tx : String) (oracle : Oracle)
    (bmap : String → Option ℚ) (now : ℚ) :
    (∀ base, bmap tx = some base → (now ≤ 500 ∨ now ≤ 1.4 * base) →
      analyzeRow env ne oracle bmap (tx, now) = Except.ok none ∧
      oracleCall? bmap (tx, now) = none) ∧
    (bmap tx = none →
      analyzeRow env ne oracle bmap (tx, now) = Except.ok none ∧
      oracleCall? bmap (tx, now) = none) := by
  constructor
  · intro base hb hle
    have hgate : ¬(base ≠ 0 ∧ 500 < now ∧ 1.4 * base < now) := by
      rintro ⟨-, h5, h14⟩
      rcases hle with h | h <;> linarith
    refine ⟨?_, ?_⟩
    · rw [analyzeRow_some env ne oracle bmap tx now base hb, if_neg hgate]
    · rw [oracleCall_some bmap tx now base hb, if_neg hgate]
  · intro hb
    constructor
    · unfold analyzeRow
      simp only [hb]
    · unfold oracleCall?
      simp only [hb]

/-- A baseline map knowing only transaction `a`, at baseline p95 300. -/
def bmapOnlyA : String → Option ℚ := fun tx => if tx = "a" then some 300 else none

/-- C3 witness: at baseline 300 a current p95 of 450 (below the 500
floor) is suppressed, and the unknown transaction `b` is suppressed for
lack of a baseline. -/
theorem latency_gate_suppression_witness :
    (analyzeRow "production" "team@example.com" oracleAlwaysLegit bmapOnlyA
        ("a", 450) = Except.ok none ∧
      oracleCall? bmapOnlyA ("a", 450) = none) ∧
    (analyzeRow "production" "team@example.com" oracleAlwaysLegit bmapOnlyA
        ("b", 450) = Except.ok none ∧
      oracleCall? bmapOnlyA ("b", 450) = none) := by
  constructor
  · exact (latency_gate_suppression "production" "team@example.com" "a"
      oracleAlwaysLegit bmapOnlyA 450).1 300 rfl (Or.inl (by norm_num))
  · exact (latency_gate_suppression "production" "team@example.com" "b"
      oracleAlwaysLegit bmapOnlyA 450).2 rfl

/-- C10: a baseline that is present but zero is falsy under the Python
truthiness guard, so the row is suppressed with no oracle call; and every
oracle call that is made carries a nonzero baseline, so the regression
percentage `(now / base - 1) * 100` interpolated into the prompt never
divides by zero. -/
theorem zero_baseline_guard (env ne tx : String) (now : ℚ) (oracle : Oracle)
    (bmap : String → Option ℚ) (h : bmap tx = some 0) :
    analyzeRow env ne oracle bmap (tx, now) = Except.ok none ∧
    oracleCall? bmap (tx, now) = none ∧
    (∀ (row : String × ℚ) (tx2 : String) (b n : ℚ),
      oracleCall? bmap row = some (tx2, b, n) → b ≠ 0) := by
  have hgate : ¬((0 : ℚ) ≠ 0 ∧ 500 < now ∧ 1.4 * 0 < now) := by
    rintro ⟨h0, -, -⟩
    exact h0 rfl
  refine ⟨?_, ?_, ?_⟩
  · rw [analyzeRow_some env ne oracle bmap tx now 0 h, if_neg hgate]
  · rw [oracleCall_some bmap tx now 0 h, if_neg hgate]
  · intro row tx2 b n hc
    obtain ⟨rtx, rv⟩ := row
    rcases hb : bmap rtx with _ | base
    · rw [oracleCall_none bmap rtx rv hb] at hc
      simp at hc
    · rw [oracleCall_some bmap rtx rv base hb] at hc
      split_ifs at hc with hg
      simp only [Option.some.injEq, Prod.mk.injEq] at hc
      rcases hc with ⟨-, hcb, -⟩
      rw [← hcb]
      exact hg.1

/-- A baseline map assigning every transaction the baseline p95 0. -/
def bmapZero : String → Option ℚ := fun _ => some 0

/-- C10 witness: a transaction with a zero baseline and a current p95 of
600 is suppressed without an oracle call. -/
theorem zero_baseline_guard_witness :
    analyzeRow "production" "team@example.com" oracleAlwaysLegit bmapZero
        ("a", 600) = Except.ok none ∧
    oracleCall? bmapZero ("a", 600) = none := by
  have h := zero_baseline_guard "production" "team@example.com" "a" 600
    oracleAlwaysLegit bmapZero rfl
  exact ⟨h.1, h.2.1⟩

/-- C4: the error-rate detector emits its single hard-coded suggestion
exactly when the hourly count strictly exceeds 50 (one at 51, zero at
50), with thresholds warning 30 / critical 50, dataset `events` and a
justification embedding the count; it never emits more than one
suggestion, and its definition consults no oracle. -/
theorem error_rate_boundary (env ne : String) (c : ℤ) (errors : List ℤ) :
    ((analyzeErrorRates env ne [c]).length = 1 ↔ 50 < c) ∧
    (50 < c → analyzeErrorRates env ne [c] = [errorSuggestion env ne c]) ∧
    (errorSuggestion env ne c).thresholds = ⟨some 30, some 50⟩ ∧
    (errorSuggestion env ne c).dataset = "events" ∧
    (errorSuggestion env ne c).justification =
      "Detected " ++ toString c ++
        " errors in the last hour, which exceeds normal baseline." ∧
    (analyzeErrorRates env ne errors).length ≤ 1 := by
  have hone : analyzeErrorRates env ne [c] =
      if 50 < c then [errorSuggestion env ne c] else [] := rfl
  refine ⟨?_, ?_, rfl, rfl, rfl, ?_⟩
  · rw [hone]
    split_ifs with hc <;> simp [hc]
  · intro hc
    rw [hone, if_pos hc]
  · rcases errors with _ | ⟨c0, cs⟩
    · simp [analyzeErrorRates]
    · have hcons : analyzeErrorRates env ne (c0 :: cs) =
          if 50 < c0 then [errorSuggestion env ne c0] else [] := rfl
      rw [hcons]
      split_ifs <;> simp

/-- C4 witness: count 51 yields exactly one suggestion, count 50 yields
none. -/
theorem error_rate_boundary_witness :
    (analyzeErrorRates "production" "team@example.com" [51]).length = 1 ∧
    ¬(analyzeErrorRates "production" "team@example.com" [50]).length = 1 := by
  constructor
  · exact (error_rate_boundary "production" "team@example.com" 51 []).1.mpr
      (by norm_num)
  · intro h
    have h50 := (error_rate_boundary "production" "team@example.com" 50 []).1.mp h
    norm_num at h50

/-- C5: the failure-rate detector emits, in query order, exactly one
suggestion per subject whose failure rate strictly exceeds 0.05 — a rate
of exactly 0.05 yields none — with fixed thresholds warning 0.03 /
critical 0.05 and severity CRITICAL, and no bound on how many subjects
qualify. -/
theorem failure_rate_per_subject (env ne : String) (rows : List (String × ℚ))
    (tx : String) (rate : ℚ) :
    analyzeFailureRates env ne rows =
      (rows.filter fun r => (0.05 : ℚ) < r.2).map
        (fun r => failureSuggestion env ne r.1 r.2) ∧
    analyzeFailureRates env ne [(tx, 0.05)] = [] ∧
    (failureSuggestion env ne tx rate).thresholds = ⟨some 0.03, some 0.05⟩ ∧
    (failureSuggestion env ne tx rate).severity = "CRITICAL" := by
  refine ⟨?_, ?_, rfl, rfl⟩
  · exact filterMap_if (fun r => (0.05 : ℚ) < r.2)
      (fun r => failureSuggestion env ne r.1 r.2) rows
  · unfold analyzeFailureRates
    simp [List.filterMap_cons]

/-- C6 (amended): when a suggestion carries both thresholds the payload
has exactly two triggers, critical first and warning second, both
carrying the same full resolved action list (which is empty when no
action is recognized); and in general a warning trigger appears iff the
suggestion had a warning threshold. -/
theorem triggers_both_thresholds (cfg : AlertConfig) (slug : String) (w c : ℚ)
    (h : cfg.thresholds? = some ⟨some w, some c⟩) :
    (buildAlertPayload cfg slug).triggers =
      [⟨"critical", c, buildActions cfg⟩, ⟨"warning", w, buildActions cfg⟩] ∧
    ∀ cfg2 : AlertConfig,
      (∃ t ∈ (buildAlertPayload cfg2 slug).triggers, t.label = "warning") ↔
        ((cfg2.thresholds?.getD ⟨none, none⟩).warning?).isSome := by
  constructor
  · simp [buildAlertPayload, h]
  · intro cfg2
    simp only [buildAlertPayload]
    rcases hth : cfg2.thresholds?.getD ⟨none, none⟩ with ⟨w?, c?⟩
    rcases w? with _ | w2 <;> rcases c? with _ | c2 <;> simp

/-- The fixture for the C6 witness: both thresholds and one email
action. -/
def wCfgC6 : AlertConfig :=
  ⟨"Checkout latency regression", none, none, none, none, none, none,
    some ⟨some 30, some 50⟩, some [⟨some "email", some "specific", some "a@b"⟩]⟩

/-- C6 witness: the concrete both-thresholds config yields the
critical-first trigger pair sharing one action list. -/
theorem triggers_both_thresholds_witness :
    (buildAlertPayload wCfgC6 "proj").triggers =
      [⟨"critical", 50, buildActions wCfgC6⟩, ⟨"warning", 30, buildActions wCfgC6⟩] :=
  (triggers_both_thresholds wCfgC6 "proj" 30 50 rfl).1

/-- The fixture for the C6 counterexample: both thresholds but only an
unrecognized (non-email) action. -/
def cexCfgC6 : AlertConfig :=
  ⟨"Checkout latency regression", none, none, none, none, none, none,
    some ⟨some 30, some 50⟩, some [⟨some "webhook", some "specific", some "x"⟩]⟩

/-- C6 counterexample: with both thresholds but a single non-email
action, the payload still has the two triggers, critical first, but both
action lists are empty — refuting the claim that they are non-empty. -/
theorem triggers_nonempty_actions_cex :
    (buildAlertPayload cexCfgC6 "proj").triggers =
      [⟨"critical", 50, []⟩, ⟨"warning", 30, []⟩] := by
  simp [buildAlertPayload, cexCfgC6, buildActions, buildAction1]

/-- C7 (amended): an action entry contributes to the built action list
iff its type — defaulting to `email` when the key is absent — is `email`
and its targetType — defaulting to `specific` when absent — is
`specific` or `team`; every other entry is omitted, the built list never
exceeding the input list, and construction is total (never an error). -/
theorem action_recognition (a : Action) :
    ((buildAction1 a).isSome ↔
      (a.type?.getD "email" = "email" ∧
        (a.targetType?.getD "specific" = "specific" ∨
          a.targetType?.getD "specific" = "team"))) ∧
    ∀ l : List Action, (l.filterMap buildAction1).length ≤ l.length := by
  constructor
  · simp only [buildAction1]
    split_ifs with h1 h2 h3 <;> simp_all
  · intro l
    exact List.length_filterMap_le _ _

/-- The fixture for the C7 counterexample: an action dict with no keys
at all. -/
def cexActionBare : Action := ⟨none, none, none⟩

/-- C7 counterexample: an action whose `type` key is absent — so its
type is not `email` — is nonetheless included in the payload, because
`.get("type", "email")` defaults it; refuting the claim that inclusion
requires the type to be email. -/
theorem action_type_default_cex :
    buildAction1 cexActionBare = some ⟨"email", "specific", ""⟩ ∧
    cexActionBare.type? ≠ some "email" := by
  constructor
  · rfl
  · simp [cexActionBare]

/-- C8: the reconciler matches the suggestion name against listed rules
exactly and case-sensitively, returns the first match in listing order,
and selects update semantics targeting the matched rule's id exactly
when a match exists — create semantics otherwise — so a matching name is
never re-created. -/
theorem reconciler_name_match (rules : List ExistingRule) (target : String) :
    (∀ r, findAlertByName rules target = some r →
      r ∈ rules ∧ r.name? = some target) ∧
    (∀ pre r post, r.name? = some target →
      (∀ x ∈ pre, x.name? ≠ some target) →
      findAlertByName (pre ++ r :: post) target = some r) ∧
    (decideMode rules target = ApplyMode.create ↔
      findAlertByName rules target = none) ∧
    (∀ r, findAlertByName rules target = some r →
      decideMode rules target = ApplyMode.update r.id) := by
  refine ⟨?_, ?_, ?_, ?_⟩
  · intro r h
    refine ⟨List.mem_of_find?_eq_some h, ?_⟩
    have hp := List.find?_some h
    simpa using hp
  · intro pre r post hr hpre
    induction pre with
    | nil =>
      unfold findAlertByName
      simp [List.find?_cons, hr]
    | cons x xs ih =>
      have hx : x.name? ≠ some target := hpre x (List.mem_cons_self x xs)
      have hxs : ∀ y ∈ xs, y.name? ≠ some target := fun y hy =>
        hpre y (List.mem_cons_of_mem x hy)
      unfold findAlertByName at ih ⊢
      simp [List.find?_cons, hx, ih hxs]
  · unfold decideMode
    rcases hf : findAlertByName rules target with _ | r <;> simp
  · intro r h
    unfold decideMode
    rw [h]

/-- Rules listed by the backend in the C8 witness. -/
def demoRules : List ExistingRule :=
  [⟨"7", some "Other alert"⟩, ⟨"42", some "X high failure rate"⟩]

/-- C8 witness: against the demo rule list, the name
`X high failure rate` is matched (first match, exact) and update
semantics targets rule id 42, while an unmatched name selects create
semantics. -/
theorem reconciler_name_match_witness :
    findAlertByName demoRules "X high failure rate" =
      some ⟨"42", some "X high failure rate"⟩ ∧
    decideMode demoRules "X high failure rate" = ApplyMode.update "42" ∧
    decideMode demoRules "Y high failure rate" = ApplyMode.create := by
  have hfind : findAlertByName demoRules "X high failure rate" =
      some ⟨"42", some "X high failure rate"⟩ :=
    (reconciler_name_match demoRules "X high failure rate").2.1
      [⟨"7", some "Other alert"⟩] ⟨"42", some "X high failure rate"⟩ [] rfl
      (by intro x hx; simp at hx; subst hx; simp)
  refine ⟨hfind, ?_, ?_⟩
  · exact (reconciler_name_match demoRules "X high failure rate").2.2.2 _ hfind
  · exact (reconciler_name_match demoRules "Y high failure rate").2.2.1.mpr rfl

/-- Results and printed lines of the batch loop distribute over list
concatenation. -/
theorem processFiles_append (as bs : List AlertFile) :
    processFiles (as ++ bs) =
      ((processFiles as).1 ++ (processFiles bs).1,
        (processFiles as).2 ++ (processFiles bs).2) := by
  induction as with
  | nil => simp [processFiles]
  | cons f fs ih => simp [processFiles, ih, List.append_assoc]

/-- C9: a file failing to parse or to apply contributes no result but
does not stop the batch — the surrounding files' results are exactly
those of the run without it — its failure is printed with the offending
file's name, and the final report counts exactly the successfully
applied files. -/
theorem batch_isolation (fs gs : List AlertFile) (f : AlertFile) (m : String)
    (hf : f.outcome = FileOutcome.parseError m ∨
      f.outcome = FileOutcome.applyError m) :
    (processFiles (fs ++ f :: gs)).1 =
      (processFiles fs).1 ++ (processFiles gs).1 ∧
    ("Error processing " ++ f.name ++ ": " ++ m) ∈
      (processFiles (fs ++ f :: gs)).2 ∧
    (∀ hs : List AlertFile,
      (processFiles hs).1.length =
        (hs.filter fun x => x.outcome.isApplied).length) ∧
    finalReport (fs ++ f :: gs) =
      "Successfully processed " ++
        toString ((fs ++ f :: gs).filter fun x => x.outcome.isApplied).length ++
        " alert(s)" := by
  have hstep : processFile f =
      (["Error processing " ++ f.name ++ ": " ++ m], none) := by
    rcases hf with h | h <;> simp [processFile, h]
  have hcount : ∀ hs : List AlertFile,
      (processFiles hs).1.length =
        (hs.filter fun x => x.outcome.isApplied).length := by
    intro hs
    induction hs with
    | nil => rfl
    | cons g hs ih =>
      rcases hg : g.outcome <;>
        simp [processFiles, processFile, hg, FileOutcome.isApplied,
          List.filter_cons, ih]
  refine ⟨?_, ?_, hcount, ?_⟩
  · rw [processFiles_append]
    simp [processFiles, hstep]
  · rw [processFiles_append]
    simp [processFiles, hstep]
  · unfold finalReport
    rw [hcount]

/-- A successfully applied file for the C9 witness. -/
def goodFile : AlertFile := ⟨"good.yaml", FileOutcome.applied "rule-1"⟩

/-- A file failing with a backend error for the C9 witness. -/
def badFile : AlertFile := ⟨"bad.yaml", FileOutcome.applyError "500 Server Error"⟩

/-- A second successfully applied file for the C9 witness. -/
def goodFile2 : AlertFile := ⟨"good2.yaml", FileOutcome.applied "rule-2"⟩

/-- C9 witness: with a failing file between two good ones, the results
are those of the two good files and the failure is reported with the
offending file's name. -/
theorem batch_isolation_witness :
    (processFiles [goodFile, badFile, goodFile2]).1 =
      (processFiles [goodFile]).1 ++ (processFiles [goodFile2]).1 ∧
    ("Error processing " ++ badFile.name ++ ": " ++ "500 Server Error") ∈
      (processFiles [goodFile, badFile, goodFile2]).2 := by
  have h := batch_isolation [goodFile] [goodFile2] badFile "500 Server Error"
    (Or.inr rfl)
  exact ⟨h.1, h.2.1⟩

end Sentralert
